import Mathlib

/-!
Verification of the MCP autonomous web research task tracker.

The system persists research tasks in a single table (`app/db/models.py`),
exposes them through an HTTP adapter (`app/main.py`) and a tool-call adapter
(`app/mcp_server.py`), and fills in results asynchronously via an LLM client
(`app/llm/ollama_client.py`).

The embedding below models the task store as a list of records plus an
auto-increment counter (SQLite assigns fresh integer primary keys starting
at 1 and the repository has no delete operation).  The outcome of each call
to the LLM client is passed in as an explicit parameter, since it depends on
the network.  Python truthiness on optional strings (`if status:`,
`result or fallback`) is modelled explicitly: `None` and `""` are falsy.
-/

namespace MCPResearch

/-- The fixed fallback string written when the LLM returned nothing
(`main.py` line 79, `mcp_server.py` lines 227 and 242). -/
def fallbackString : String := "LLM did not return a result."

/-- Python truthiness of an optional string: `None` and `""` are falsy. -/
def pyStrTruthy (o : Option String) : Bool :=
  match o with
  | none => false
  | some v => !(v == "")

/-- Python `o or d` on an optional string `o` and a string default `d`:
yields `d` when `o` is `None` or the empty string. -/
def pyOrStr (o : Option String) (d : String) : String :=
  match o with
  | none => d
  | some v => if v == "" then d else v

/-- A row of the `research_tasks` table (`app/db/models.py`).  The creation
timestamp is set once and never read by any operation the claims mention, so
it is omitted from the record. -/
structure Task where
  id : Nat
  query : String
  status : String
  result : Option String
  deriving Repr, DecidableEq

/-- The SQLite-backed task store: the rows plus the next auto-increment
primary key value.  SQLite assigns `nextId` to the next inserted row. -/
structure Store where
  tasks : List Task
  nextId : Nat
  deriving Repr, DecidableEq

/-- `db.query(ResearchTaskORM).filter(ResearchTaskORM.id == task_id).first()`. -/
def Store.findById (s : Store) (i : Nat) : Option Task :=
  s.tasks.find? (fun t => t.id == i)

/-- Insert a fresh row: SQLite assigns the next auto-increment id. -/
def Store.insertTask (s : Store) (q : String) (st : String) (r : Option String) :
    Task × Store :=
  let t : Task := { id := s.nextId, query := q, status := st, result := r }
  (t, { tasks := s.tasks ++ [t], nextId := s.nextId + 1 })

/-- Mutate the row with id `i` by `f` and commit (all other rows are
untouched; committing an unchanged row is the identity). -/
def Store.setTask (s : Store) (i : Nat) (f : Task → Task) : Store :=
  { s with tasks := s.tasks.map (fun t => if t.id == i then f t else t) }

/-- Well-formedness of the store: every assigned id is below the
auto-increment counter.  This holds for every store the system can build,
since ids are only ever assigned from the counter and rows are never
deleted. -/
def Store.WF (s : Store) : Prop :=
  ∀ t ∈ s.tasks, t.id < s.nextId

/-! ### LLM adapter (`app/llm/ollama_client.py`)

`OllamaClient.generate` performs one `requests.post`, calls
`raise_for_status`, parses the JSON body and returns `data.get("response")`;
the whole body sits in a `try`/`except Exception` that returns `None`.  The
transport outcome of the single HTTP call is modelled explicitly. -/

/-- Outcome of the one HTTP call made by `generate`:
either `requests.post` itself raises (network error / timeout), or a
response arrives with a status code and a body.  The body is `none` when
`response.json()` raises (malformed body), and `some f` when it parses,
where `f` is the value of its `"response"` field (`none` when absent). -/
inductive HttpOutcome
  | netError
  | response (status : Nat) (body : Option (Option String))
  deriving Repr, DecidableEq

/-- The exception classes that can escape the `try` block. -/
inductive PyExn
  | requestException
  | httpError
  | jsonError
  deriving Repr, DecidableEq

/-- `response.raise_for_status()`: the HTTP client raises exactly for
client-error and server-error status codes (4xx and 5xx). -/
def raiseForStatus (status : Nat) : Except PyExn Unit :=
  if 400 ≤ status ∧ status < 600 then .error .httpError else .ok ()

/-- The body of `OllamaClient.generate`'s `try` block: post, raise for
status, parse JSON, `data.get("response")`. -/
def OllamaClient.generateBody (o : HttpOutcome) : Except PyExn (Option String) :=
  match o with
  | .netError => .error .requestException
  | .response st body =>
    match raiseForStatus st with
    | .error e => .error e
    | .ok _ =>
      match body with
      | none => .error .jsonError
      | some f => .ok f

/-- `OllamaClient.generate`: the `try` body with the catch-all
`except Exception: return None` wrapped around it. -/
def OllamaClient.generate (o : HttpOutcome) : Option String :=
  match OllamaClient.generateBody o with
  | .ok r => r
  | .error _ => none

/-- `generate` against a stream of potential transport outcomes: the method
issues exactly one HTTP call, consuming only the first outcome. -/
def OllamaClient.generateStream (oracle : Nat → HttpOutcome) : Option String :=
  OllamaClient.generate (oracle 0)

/-! ### HTTP adapter (`app/main.py`)

Each endpoint opens its own short-lived session and commits before
returning.  The result of the `ollama_client.generate(...)` call inside a
handler is passed in as an `Option String` parameter. -/

/-- `GET /research`: all rows. -/
def get_research_tasks_http (s : Store) : List Task := s.tasks

/-- `POST /research` (`create_research_task`, `main.py` lines 85-102): no
validation of the query; inserts a pending row with no result and returns it
immediately, before the scheduled background task runs. -/
def create_research_task_http (q : String) (s : Store) : Task × Store :=
  s.insertTask q "pending" none

/-- The background write-back scheduled by the HTTP create
(`llm_generate_scraping_strategy`, `main.py` lines 71-83): if the row still
exists, store the LLM text — or the fallback when the LLM returned nothing —
and mark the task completed.  `llm` is the return value of
`ollama_client.generate(prompt, model="codellama")`. -/
def writebackFields (llm : Option String) (t : Task) : Task :=
  { t with result := some (pyOrStr llm fallbackString), status := "completed" }

def llm_generate_scraping_strategy (taskId : Nat) (query : String)
    (llm : Option String) (s : Store) : Store :=
  match s.findById taskId with
  | none => s
  | some _ => s.setTask taskId (writebackFields llm)

/-- The HTTP error raised by `update_research_task` for an unknown id
(`HTTPException(status_code=404)`). -/
inductive HttpError
  | notFound
  deriving Repr, DecidableEq

/-- Field application of the HTTP `PATCH` body (`main.py` lines 117-120):
a field is applied iff it is present (not `None`); the empty string is a
legitimate value and is written. -/
def applyHttpUpdate (statusArg resultArg : Option String) (t : Task) : Task :=
  let t1 :=
    match statusArg with
    | some v => { t with status := v }
    | none => t
  match resultArg with
  | some v => { t1 with result := some v }
  | none => t1

/-- `PATCH /research/{task_id}` (`update_research_task`, `main.py` lines
108-129): 404 when the id is unknown (store untouched), otherwise apply
exactly the provided fields and return the refreshed row. -/
def update_research_task_http (taskId : Nat) (statusArg resultArg : Option String)
    (s : Store) : Except HttpError Task × Store :=
  match s.findById taskId with
  | none => (.error .notFound, s)
  | some t =>
    (.ok (applyHttpUpdate statusArg resultArg t),
     s.setTask taskId (applyHttpUpdate statusArg resultArg))

/-- `POST /analyze` (`analyze_content`, `main.py` lines 137-141): no
validation of the content; returns the LLM text or the fallback.  The
handler touches no session, so it has no store parameter.  `llm` is the
return value of `ollama_client.generate(prompt, model="llama3.2")`. -/
def analyze_content_http (content : String) (llm : Option String) : String :=
  pyOrStr llm fallbackString

/-! ### Tool-call adapter (`app/mcp_server.py`)

Every tool returns a `CallToolResult` holding a single `TextContent`; the
`isError` flag of the MCP result type is never set and defaults to
`False`. -/

/-- A content item of a tool-call result.  The code only ever builds
`TextContent`; a structured error would be a result with `isError` set. -/
inductive ContentItem
  | textContent (text : String)
  deriving Repr, DecidableEq

/-- The envelope every tool call returns. -/
structure CallToolResult where
  content : List ContentItem
  isError : Bool := false
  deriving Repr, DecidableEq

/-- The argument dictionary of a tool call, restricted to the keys the four
tools read.  A missing key (`arguments.get(...)` returning `None`) is
`none`. -/
structure ToolArguments where
  query : Option String := none
  taskId : Option Nat := none
  status : Option String := none
  result : Option String := none
  content : Option String := none
  deriving Repr, DecidableEq

/-- Build the uniform single-text-block envelope. -/
def textResult (t : String) : CallToolResult :=
  { content := [.textContent t] }

/-- `create_research_task` tool (`mcp_server.py` lines 124-153): rejects a
missing or falsy query with an error text; otherwise inserts a pending row
and reports its id.  The background `generate_llm_response` task is
scheduled but has not run when this returns. -/
def create_research_task_mcp (args : ToolArguments) (s : Store) :
    CallToolResult × Store :=
  if pyStrTruthy args.query then
    match args.query with
    | some q =>
      let (t, s2) := s.insertTask q "pending" none
      (textResult ("Research task created with ID " ++ toString t.id ++
        ". Status: " ++ t.status), s2)
    | none => (textResult "Error: query is required", s)
  else
    (textResult "Error: query is required", s)

/-- `list_research_tasks` tool (`mcp_server.py` lines 155-176). -/
def list_research_tasks_mcp (s : Store) : CallToolResult × Store :=
  if s.tasks.isEmpty then
    (textResult "No research tasks found.", s)
  else
    (textResult ("Research Tasks:\n" ++ String.intercalate "\n"
      (s.tasks.map (fun t =>
        "ID: " ++ toString t.id ++ ", Query: " ++ t.query ++
        ", Status: " ++ t.status))), s)

/-- Field application of the tool-call update (`mcp_server.py` lines
197-200): `if status:` / `if result:` — a field is applied iff its value is
truthy, so a provided empty string is ignored. -/
def applyMcpUpdate (statusArg resultArg : Option String) (t : Task) : Task :=
  let t1 := if pyStrTruthy statusArg then { t with status := statusArg.getD "" } else t
  if pyStrTruthy resultArg then { t1 with result := some (resultArg.getD "") } else t1

/-- `update_research_task` tool (`mcp_server.py` lines 178-211): a falsy
`task_id` (absent or `0`) yields the required-argument error text; an
unknown id yields a not-found text; otherwise the truthy fields are applied
and the new status reported. -/
def update_research_task_mcp (args : ToolArguments) (s : Store) :
    CallToolResult × Store :=
  match args.taskId with
  | none => (textResult "Error: task_id is required", s)
  | some i =>
    if i == 0 then (textResult "Error: task_id is required", s)
    else
      match s.findById i with
      | none => (textResult ("Task " ++ toString i ++ " not found"), s)
      | some t =>
        (textResult ("Task " ++ toString i ++ " updated successfully. Status: " ++
          (applyMcpUpdate args.status args.result t).status),
         s.setTask i (applyMcpUpdate args.status args.result))

/-- `analyze_content` tool (`mcp_server.py` lines 213-229): rejects a
missing or falsy content with an error text; otherwise returns the LLM text
or the fallback.  No session is opened, so there is no store parameter. -/
def analyze_content_mcp (args : ToolArguments) (llm : Option String) :
    CallToolResult :=
  if pyStrTruthy args.content then
    textResult (pyOrStr llm fallbackString)
  else
    textResult "Error: content is required"

/-- `generate_llm_response` (`mcp_server.py` lines 231-246): the background
write-back scheduled by the tool-call create; identical logic to
`llm_generate_scraping_strategy`. -/
def generate_llm_response (taskId : Nat) (query : String)
    (llm : Option String) (s : Store) : Store :=
  match s.findById taskId with
  | none => s
  | some _ => s.setTask taskId (writebackFields llm)

/-- `handle_call_tool` (`mcp_server.py` lines 103-122): dispatch on the tool
name, with an unknown-tool text for other names; the surrounding
`try`/`except` turns any exception into a plain-text envelope, so the
dispatcher can only ever return a non-error envelope. -/
def handle_call_tool (name : String) (args : ToolArguments)
    (llm : Option String) (s : Store) : CallToolResult × Store :=
  if name == "create_research_task" then create_research_task_mcp args s
  else if name == "list_research_tasks" then list_research_tasks_mcp s
  else if name == "update_research_task" then update_research_task_mcp args s
  else if name == "analyze_content" then (analyze_content_mcp args llm, s)
  else (textResult ("Unknown tool: " ++ name), s)

/-! ### Helper lemmas -/

theorem pyOrStr_none (d : String) : pyOrStr none d = d := rfl

theorem pyOrStr_some_empty (d : String) : pyOrStr (some "") d = d := by
  simp [pyOrStr]

theorem pyOrStr_some_of_ne (v d : String) (h : v ≠ "") : pyOrStr (some v) d = v := by
  simp [pyOrStr, h]

theorem find_map_upd (l : List Task) (i : Nat) (f : Task → Task)
    (hf : ∀ t, (f t).id = t.id) :
    (l.map (fun t => if t.id == i then f t else t)).find? (fun t => t.id == i)
      = (l.find? (fun t => t.id == i)).map f := by
  induction l with
  | nil => rfl
  | cons hd tl ih =>
    rw [List.map_cons]
    by_cases h : hd.id = i
    · have hb : (hd.id == i) = true := by simp [h]
      have hb2 : ((f hd).id == i) = true := by rw [hf hd]; exact hb
      have hhead : (if hd.id == i then f hd else hd) = f hd := by simp [hb]
      rw [hhead]
      simp only [List.find?, hb, hb2]
      rfl
    · have hb : (hd.id == i) = false := by simp [h]
      have hhead : (if hd.id == i then f hd else hd) = hd := by simp [hb]
      rw [hhead]
      simp only [List.find?, hb]
      exact ih

theorem Store.findById_setTask_self (s : Store) (i : Nat) (f : Task → Task)
    (hf : ∀ t, (f t).id = t.id) :
    (s.setTask i f).findById i = (s.findById i).map f :=
  find_map_upd s.tasks i f hf

/-- C1: for a task present in the store, the background write-back — on
either adapter — sets the status to "completed" and the result to a non-null
value: the LLM text when the adapter returned non-empty text, and the fixed
fallback string when it returned `None` or empty text. -/
theorem writeback_completes_task
    (s : Store) (i : Nat) (q : String) (llm : Option String) (t : Task)
    (h : s.findById i = some t) :
    ∃ t2 : Task,
      (llm_generate_scraping_strategy i q llm s).findById i = some t2 ∧
      (generate_llm_response i q llm s).findById i = some t2 ∧
      t2.status = "completed" ∧
      t2.result ≠ none ∧
      (∀ txt, llm = some txt → txt ≠ "" → t2.result = some txt) ∧
      (llm = none ∨ llm = some "" → t2.result = some fallbackString) := by
  refine ⟨writebackFields llm t, ?_, ?_, rfl, by simp [writebackFields], ?_, ?_⟩
  · unfold llm_generate_scraping_strategy
    rw [h, Store.findById_setTask_self s i (writebackFields llm) (fun t => rfl), h]
    rfl
  · unfold generate_llm_response
    rw [h, Store.findById_setTask_self s i (writebackFields llm) (fun t => rfl), h]
    rfl
  · intro txt hl hne
    subst hl
    simp [writebackFields, pyOrStr_some_of_ne _ _ hne]
  · intro hl
    rcases hl with hl | hl <;> subst hl <;>
      simp [writebackFields, pyOrStr_none, pyOrStr_some_empty]

/-- A one-task store used to instantiate the verified statements. -/
def wStore1 : Store :=
  { tasks := [{ id := 1, query := "q", status := "pending", result := none }], nextId := 2 }

/-- Witness for C1 at a concrete store, task and LLM outcome. -/
theorem writeback_completes_task_witness :
    ∃ t2 : Task,
      (llm_generate_scraping_strategy 1 "q" (some "strategy") wStore1).findById 1 = some t2 ∧
      (generate_llm_response 1 "q" (some "strategy") wStore1).findById 1 = some t2 ∧
      t2.status = "completed" ∧
      t2.result ≠ none ∧
      (∀ txt, (some "strategy" : Option String) = some txt → txt ≠ "" → t2.result = some txt) ∧
      ((some "strategy" : Option String) = none ∨ (some "strategy" : Option String) = some ""
        → t2.result = some fallbackString) :=
  writeback_completes_task wStore1 1 "q" (some "strategy")
    { id := 1, query := "q", status := "pending", result := none } (by decide)

/-- The empty store (fresh database: SQLite assigns id 1 first). -/
def wStore0 : Store := { tasks := [], nextId := 1 }

/-- Inserting a row preserves store well-formedness, so `Store.WF` is an
invariant of both adapters' create operations. -/
theorem Store.WF_insertTask (s : Store) (hwf : s.WF) (q st : String)
    (r : Option String) : (s.insertTask q st r).snd.WF := by
  intro t ht
  unfold Store.insertTask at ht
  simp only [List.mem_append, List.mem_singleton] at ht
  rcases ht with ht | ht
  · exact Nat.lt_succ_of_lt (hwf t ht)
  · subst ht
    exact Nat.lt_succ_self _

/-- An id-preserving row mutation preserves store well-formedness, so
`Store.WF` is an invariant of both adapters' updates and of the background
write-back. -/
theorem Store.WF_setTask (s : Store) (hwf : s.WF) (i : Nat) (f : Task → Task)
    (hf : ∀ t, (f t).id = t.id) : (s.setTask i f).WF := by
  intro t ht
  unfold Store.setTask at ht
  simp only [List.mem_map] at ht
  obtain ⟨u, hu, he⟩ := ht
  subst he
  by_cases h : (u.id == i) = true
  · rw [if_pos h, hf u]
    exact hwf u hu
  · rw [if_neg h]
    exact hwf u hu

/-- C4: a create call with a non-empty query returns — before any background
write-back — a record with status "pending", no result and the submitted
query, whose id differs from every existing task's id; the tool-call
adapter inserts the same record and reports its id. -/
theorem create_returns_fresh_pending
    (s : Store) (q : String) (hq : q ≠ "") (hwf : s.WF) :
    (create_research_task_http q s).fst.status = "pending" ∧
    (create_research_task_http q s).fst.result = none ∧
    (create_research_task_http q s).fst.query = q ∧
    (∀ t ∈ s.tasks, t.id ≠ (create_research_task_http q s).fst.id) ∧
    (create_research_task_http q s).snd.tasks
      = s.tasks ++ [(create_research_task_http q s).fst] ∧
    (create_research_task_mcp { query := some q } s).snd
      = (create_research_task_http q s).snd ∧
    (create_research_task_mcp { query := some q } s).fst
      = textResult ("Research task created with ID " ++ toString s.nextId
          ++ ". Status: pending") := by
  have hq2 : (q == "") = false := by simp [hq]
  refine ⟨rfl, rfl, rfl, ?_, rfl, ?_, ?_⟩
  · intro t ht
    exact Nat.ne_of_lt (hwf t ht)
  · simp [create_research_task_mcp, pyStrTruthy, hq2, create_research_task_http,
      Store.insertTask]
  · have hcat : (". Status: " ++ "pending" : String) = ". Status: pending" := rfl
    simp [create_research_task_mcp, pyStrTruthy, hq2, Store.insertTask, textResult,
      String.append_assoc, hcat]

/-- Witness for C4 on a concrete store and query. -/
theorem create_returns_fresh_pending_witness :
    (create_research_task_http "best laptop 2024" wStore1).fst.status = "pending" ∧
    (create_research_task_http "best laptop 2024" wStore1).fst.result = none ∧
    (∀ t ∈ wStore1.tasks, t.id ≠ (create_research_task_http "best laptop 2024" wStore1).fst.id) :=
  ⟨(create_returns_fresh_pending wStore1 "best laptop 2024" (by decide)
      (by unfold Store.WF; decide)).1,
   (create_returns_fresh_pending wStore1 "best laptop 2024" (by decide)
      (by unfold Store.WF; decide)).2.1,
   (create_returns_fresh_pending wStore1 "best laptop 2024" (by decide)
      (by unfold Store.WF; decide)).2.2.2.1⟩

/-- C3 counterexample: creating over HTTP with the empty query is not
rejected — `POST /research` performs no validation and persists a pending
record whose query is the empty string. -/
theorem create_empty_query_counterexample :
    (create_research_task_http "" wStore0).snd.tasks ≠ wStore0.tasks ∧
    (create_research_task_http "" wStore0).snd.findById 1
      = some { id := 1, query := "", status := "pending", result := none } := by
  decide

/-- C3 amended: the tool-call adapter rejects the empty query with an error
text and leaves the store unchanged, while the HTTP adapter performs no
validation and inserts a pending record with the empty query. -/
theorem create_empty_query_behavior (s : Store) :
    (create_research_task_mcp { query := some "" } s).snd = s ∧
    (create_research_task_mcp { query := some "" } s).fst
      = textResult "Error: query is required" ∧
    (create_research_task_mcp { query := none } s).snd = s ∧
    (create_research_task_http "" s).snd.tasks
      = s.tasks ++ [{ id := s.nextId, query := "", status := "pending", result := none }] := by
  refine ⟨?_, ?_, rfl, rfl⟩ <;> simp [create_research_task_mcp, pyStrTruthy]

theorem applyHttpUpdate_id (sa ra : Option String) (t : Task) :
    (applyHttpUpdate sa ra t).id = t.id := by
  unfold applyHttpUpdate
  cases sa <;> cases ra <;> rfl

theorem applyHttpUpdate_query (sa ra : Option String) (t : Task) :
    (applyHttpUpdate sa ra t).query = t.query := by
  unfold applyHttpUpdate
  cases sa <;> cases ra <;> rfl

theorem applyHttpUpdate_status (sa ra : Option String) (t : Task) :
    (applyHttpUpdate sa ra t).status
      = (match sa with | some v => v | none => t.status) := by
  unfold applyHttpUpdate
  cases sa <;> cases ra <;> rfl

theorem applyHttpUpdate_result (sa ra : Option String) (t : Task) :
    (applyHttpUpdate sa ra t).result
      = (match ra with | some v => some v | none => t.result) := by
  unfold applyHttpUpdate
  cases sa <;> cases ra <;> rfl

theorem applyMcpUpdate_eq (sa ra : Option String) (t : Task) :
    applyMcpUpdate sa ra t =
      { t with
        status := if pyStrTruthy sa then sa.getD "" else t.status,
        result := if pyStrTruthy ra then some (ra.getD "") else t.result } := by
  unfold applyMcpUpdate
  by_cases hs : pyStrTruthy sa = true <;> by_cases hr : pyStrTruthy ra = true <;>
    simp [hs, hr]

theorem applyMcpUpdate_id (sa ra : Option String) (t : Task) :
    (applyMcpUpdate sa ra t).id = t.id := by
  rw [applyMcpUpdate_eq]

theorem applyMcpUpdate_query (sa ra : Option String) (t : Task) :
    (applyMcpUpdate sa ra t).query = t.query := by
  rw [applyMcpUpdate_eq]

theorem applyMcpUpdate_status (sa ra : Option String) (t : Task) :
    (applyMcpUpdate sa ra t).status
      = (match sa with
         | some v => if v = "" then t.status else v
         | none => t.status) := by
  rw [applyMcpUpdate_eq]
  cases sa with
  | none => simp [pyStrTruthy]
  | some v =>
    by_cases hv : v = "" <;> simp [pyStrTruthy, hv]

theorem applyMcpUpdate_result (sa ra : Option String) (t : Task) :
    (applyMcpUpdate sa ra t).result
      = (match ra with
         | some v => if v = "" then t.result else some v
         | none => t.result) := by
  rw [applyMcpUpdate_eq]
  cases ra with
  | none => simp [pyStrTruthy]
  | some v =>
    by_cases hv : v = "" <;> simp [pyStrTruthy, hv]

theorem Store.setTask_id_fun (s : Store) (i : Nat) (f : Task → Task)
    (hf : ∀ t, f t = t) : s.setTask i f = s := by
  unfold Store.setTask
  have hfun : (fun t => if t.id == i then f t else t) = fun t => t := by
    funext t
    by_cases h : (t.id == i) = true <;> simp [h, hf]
  rw [hfun]
  simp

/-- C10: for an existing task, a tool-call update supplying the empty string
as status and result leaves both fields at their previous values — the call
behaves exactly as if the fields were absent, including its reply text and
the final store — whereas the HTTP update writes the empty string into both
fields.  The tool-call adapter tests the fields by truthiness, not
presence. -/
theorem mcp_update_empty_string_ignored
    (s : Store) (i : Nat) (t : Task) (hi : i ≠ 0) (h : s.findById i = some t) :
    update_research_task_mcp { taskId := some i, status := some "", result := some "" } s
      = update_research_task_mcp { taskId := some i } s ∧
    (update_research_task_mcp { taskId := some i, status := some "", result := some "" } s).snd
      = s ∧
    (update_research_task_http i (some "") (some "") s).fst
      = .ok { t with status := "", result := some "" } ∧
    (∃ t3, (update_research_task_http i (some "") (some "") s).snd.findById i = some t3 ∧
      t3.status = "" ∧ t3.result = some "") := by
  have hi2 : (i == 0) = false := by simp [hi]
  have hfun : applyMcpUpdate (some "") (some "") = applyMcpUpdate none none := by
    funext u
    simp [applyMcpUpdate, pyStrTruthy]
  have hid : applyMcpUpdate none none = fun u => u := by
    funext u
    rfl
  refine ⟨?_, ?_, ?_, ?_⟩
  · simp only [update_research_task_mcp, hi2, Bool.false_eq_true, if_false, h, hfun]
  · simp only [update_research_task_mcp, hi2, Bool.false_eq_true, if_false, h, hfun, hid]
    exact Store.setTask_id_fun s i _ (fun u => rfl)
  · simp [update_research_task_http, h, applyHttpUpdate]
  · refine ⟨applyHttpUpdate (some "") (some "") t, ?_, rfl, rfl⟩
    simp only [update_research_task_http, h]
    rw [Store.findById_setTask_self s i _ (applyHttpUpdate_id (some "") (some "")), h]
    rfl

/-- Witness for C10 on a concrete store and task. -/
theorem mcp_update_empty_string_ignored_witness :
    update_research_task_mcp { taskId := some 1, status := some "", result := some "" } wStore1
      = update_research_task_mcp { taskId := some 1 } wStore1 ∧
    (update_research_task_mcp { taskId := some 1, status := some "", result := some "" } wStore1).snd
      = wStore1 :=
  ⟨(mcp_update_empty_string_ignored wStore1 1
      { id := 1, query := "q", status := "pending", result := none }
      (by decide) (by decide)).1,
   (mcp_update_empty_string_ignored wStore1 1
      { id := 1, query := "q", status := "pending", result := none }
      (by decide) (by decide)).2.1⟩

/-- A one-task store whose task has both a status and a result. -/
def wStore2 : Store :=
  { tasks := [{ id := 1, query := "q", status := "pending", result := some "X" }],
    nextId := 2 }

/-- C2 counterexample: on the tool-call adapter, an update that provides
only `status`, with value `""`, does not write the provided field — the
task keeps its previous status "pending" instead of the provided "". -/
theorem update_writes_provided_fields_counterexample :
    (update_research_task_mcp { taskId := some 1, status := some "" } wStore2).snd.findById 1
      = some { id := 1, query := "q", status := "pending", result := some "X" } ∧
    ("pending" : String) ≠ "" := by
  decide

/-- C2 amended: for an existing task, the HTTP update writes exactly the
provided fields and leaves absent fields at their previous values, while
the tool-call update writes exactly those provided fields whose values are
non-empty, leaving absent or empty-string-valued fields at their previous
values.  In particular an update providing only a non-empty status
preserves a previously set result, and vice versa, on both adapters. -/
theorem update_writes_provided_fields
    (s : Store) (i : Nat) (t : Task) (statusArg resultArg : Option String)
    (hi : i ≠ 0) (h : s.findById i = some t) :
    (∃ t2, (update_research_task_http i statusArg resultArg s).fst = .ok t2 ∧
      (update_research_task_http i statusArg resultArg s).snd.findById i = some t2 ∧
      t2.query = t.query ∧
      t2.status = (match statusArg with | some v => v | none => t.status) ∧
      t2.result = (match resultArg with | some v => some v | none => t.result)) ∧
    (∃ t3, (update_research_task_mcp
        { taskId := some i, status := statusArg, result := resultArg } s).snd.findById i
          = some t3 ∧
      t3.query = t.query ∧
      t3.status = (match statusArg with
        | some v => if v = "" then t.status else v
        | none => t.status) ∧
      t3.result = (match resultArg with
        | some v => if v = "" then t.result else some v
        | none => t.result)) := by
  have hi2 : (i == 0) = false := by simp [hi]
  constructor
  · refine ⟨applyHttpUpdate statusArg resultArg t, ?_, ?_,
      applyHttpUpdate_query statusArg resultArg t,
      applyHttpUpdate_status statusArg resultArg t,
      applyHttpUpdate_result statusArg resultArg t⟩
    · simp [update_research_task_http, h]
    · simp only [update_research_task_http, h]
      rw [Store.findById_setTask_self s i _ (applyHttpUpdate_id statusArg resultArg), h]
      rfl
  · refine ⟨applyMcpUpdate statusArg resultArg t, ?_,
      applyMcpUpdate_query statusArg resultArg t,
      applyMcpUpdate_status statusArg resultArg t,
      applyMcpUpdate_result statusArg resultArg t⟩
    simp only [update_research_task_mcp, hi2, Bool.false_eq_true, if_false, h]
    rw [Store.findById_setTask_self s i _ (applyMcpUpdate_id statusArg resultArg), h]
    rfl

/-- Witness for the amended C2: updating only the status (non-empty value)
of a task that has a result preserves the result on both adapters. -/
theorem update_writes_provided_fields_witness :
    (∃ t2, (update_research_task_http 1 (some "archived") none wStore2).fst = .ok t2 ∧
      (update_research_task_http 1 (some "archived") none wStore2).snd.findById 1 = some t2 ∧
      t2.query = "q" ∧
      t2.status = (match (some "archived" : Option String) with
        | some v => v | none => "pending") ∧
      t2.result = (match (none : Option String) with
        | some v => some v | none => some "X")) ∧
    (∃ t3, (update_research_task_mcp
        { taskId := some 1, status := some "archived", result := none } wStore2).snd.findById 1
          = some t3 ∧
      t3.query = "q" ∧
      t3.status = (match (some "archived" : Option String) with
        | some v => if v = "" then "pending" else v
        | none => "pending") ∧
      t3.result = (match (none : Option String) with
        | some v => if v = "" then some "X" else some v
        | none => some "X")) :=
  update_writes_provided_fields wStore2 1
    { id := 1, query := "q", status := "pending", result := some "X" }
    (some "archived") none (by decide) (by decide)

/-- C5 counterexample: id 0 is never present in the store, yet the
tool-call adapter does not report not-found for it — `if not task_id:`
treats 0 as a missing argument and reports the required-argument error. -/
theorem update_missing_id_counterexample :
    wStore1.findById 0 = none ∧
    (update_research_task_mcp { taskId := some 0, status := some "x" } wStore1).fst
      = textResult "Error: task_id is required" ∧
    textResult "Error: task_id is required" ≠ textResult "Task 0 not found" := by
  decide

/-- C5 amended: an update whose task id is not present fails and leaves the
store unchanged on both adapters — the HTTP adapter with a 404 not-found
error for every absent id, the tool-call adapter with a not-found text for
every nonzero absent id and with the required-argument text for id 0, which
its truthiness test treats as missing. -/
theorem update_missing_id_fails
    (s : Store) (i : Nat) (statusArg resultArg : Option String)
    (h : s.findById i = none) :
    (update_research_task_http i statusArg resultArg s).fst = .error .notFound ∧
    (update_research_task_http i statusArg resultArg s).snd = s ∧
    (update_research_task_mcp
      { taskId := some i, status := statusArg, result := resultArg } s).snd = s ∧
    (i ≠ 0 → (update_research_task_mcp
      { taskId := some i, status := statusArg, result := resultArg } s).fst
        = textResult ("Task " ++ toString i ++ " not found")) ∧
    (i = 0 → (update_research_task_mcp
      { taskId := some i, status := statusArg, result := resultArg } s).fst
        = textResult "Error: task_id is required") := by
  refine ⟨?_, ?_, ?_, ?_, ?_⟩
  · simp [update_research_task_http, h]
  · simp [update_research_task_http, h]
  · by_cases hi : i = 0
    · simp [update_research_task_mcp, hi]
    · have hi2 : (i == 0) = false := by simp [hi]
      simp [update_research_task_mcp, hi2, h]
  · intro hi
    have hi2 : (i == 0) = false := by simp [hi]
    simp [update_research_task_mcp, hi2, h]
  · intro hi
    simp [update_research_task_mcp, hi]

/-- Witness for the amended C5 at a concrete absent id. -/
theorem update_missing_id_fails_witness :
    (update_research_task_http 999 (some "x") none wStore1).fst = .error .notFound ∧
    (update_research_task_http 999 (some "x") none wStore1).snd = wStore1 ∧
    (update_research_task_mcp
      { taskId := some 999, status := some "x", result := none } wStore1).snd = wStore1 :=
  ⟨(update_missing_id_fails wStore1 999 (some "x") none (by decide)).1,
   (update_missing_id_fails wStore1 999 (some "x") none (by decide)).2.1,
   (update_missing_id_fails wStore1 999 (some "x") none (by decide)).2.2.1⟩

/-- Every tool handler of the tool-call adapter yields the uniform
single-text-block envelope. -/
theorem create_mcp_shape (args : ToolArguments) (s : Store) :
    ∃ txt, (create_research_task_mcp args s).fst = textResult txt := by
  unfold create_research_task_mcp
  split
  · split
    · exact ⟨_, rfl⟩
    · exact ⟨_, rfl⟩
  · exact ⟨_, rfl⟩

theorem list_mcp_shape (s : Store) :
    ∃ txt, (list_research_tasks_mcp s).fst = textResult txt := by
  unfold list_research_tasks_mcp
  split
  · exact ⟨_, rfl⟩
  · exact ⟨_, rfl⟩

theorem update_mcp_shape (args : ToolArguments) (s : Store) :
    ∃ txt, (update_research_task_mcp args s).fst = textResult txt := by
  unfold update_research_task_mcp
  split
  · exact ⟨_, rfl⟩
  · split
    · exact ⟨_, rfl⟩
    · split
      · exact ⟨_, rfl⟩
      · exact ⟨_, rfl⟩

theorem analyze_mcp_shape (args : ToolArguments) (llm : Option String) :
    ∃ txt, analyze_content_mcp args llm = textResult txt := by
  unfold analyze_content_mcp
  split
  · exact ⟨_, rfl⟩
  · exact ⟨_, rfl⟩

/-- C9: for every tool name and every argument dictionary, the tool-call
dispatcher returns a successful envelope (`isError` never set) containing
exactly one text block; validation failures, not-found conditions and
unknown tool names are all reported as text inside that successful
envelope, never as a structured error and never by raising. -/
theorem dispatcher_always_text_envelope (name : String) (args : ToolArguments)
    (llm : Option String) (s : Store) :
    (handle_call_tool name args llm s).fst.isError = false ∧
    ∃ txt, (handle_call_tool name args llm s).fst.content = [.textContent txt] := by
  have hshape : ∃ txt, (handle_call_tool name args llm s).fst = textResult txt := by
    unfold handle_call_tool
    split
    · exact create_mcp_shape args s
    · split
      · exact list_mcp_shape s
      · split
        · exact update_mcp_shape args s
        · split
          · exact analyze_mcp_shape args llm
          · exact ⟨_, rfl⟩
  obtain ⟨txt, ht⟩ := hshape
  rw [ht]
  exact ⟨rfl, txt, rfl⟩

/-- C7 counterexample: `POST /analyze` with empty content is not rejected —
the HTTP handler performs no validation, calls the LLM and returns a normal
analysis response (here the fallback string, the LLM having returned
nothing), while the tool-call adapter rejects the same input. -/
theorem analyze_empty_content_counterexample :
    analyze_content_http "" none = fallbackString ∧
    analyze_content_mcp { content := some "" } none
      = textResult "Error: content is required" ∧
    fallbackString ≠ "Error: content is required" := by
  decide

/-- C7 amended: the tool-call adapter rejects empty content with an error
text while the HTTP adapter accepts any content without validation; on both
adapters a call that reaches the LLM returns the LLM text when it is
non-empty and the fixed fallback string when the LLM returned nothing, and
the task store is unchanged in every case (the path has no persistence). -/
theorem analyze_behavior
    (c : String) (hc : c ≠ "") (llm : Option String) (s : Store) :
    analyze_content_mcp { content := some "" } llm
      = textResult "Error: content is required" ∧
    analyze_content_mcp { content := none } llm
      = textResult "Error: content is required" ∧
    analyze_content_mcp { content := some c } llm
      = textResult (pyOrStr llm fallbackString) ∧
    analyze_content_http c llm = pyOrStr llm fallbackString ∧
    (llm = none ∨ llm = some "" → pyOrStr llm fallbackString = fallbackString) ∧
    (∀ txt, llm = some txt → txt ≠ "" → pyOrStr llm fallbackString = txt) ∧
    (handle_call_tool "analyze_content" { content := some c } llm s).snd = s ∧
    (handle_call_tool "analyze_content" { content := some "" } llm s).snd = s := by
  have hc2 : (c == "") = false := by simp [hc]
  refine ⟨?_, rfl, ?_, rfl, ?_, ?_, ?_, ?_⟩
  · simp [analyze_content_mcp, pyStrTruthy]
  · simp [analyze_content_mcp, pyStrTruthy, hc2]
  · intro hl
    rcases hl with hl | hl <;> subst hl
    · exact pyOrStr_none fallbackString
    · exact pyOrStr_some_empty fallbackString
  · intro txt hl hne
    subst hl
    exact pyOrStr_some_of_ne txt fallbackString hne
  · simp [handle_call_tool]
  · simp [handle_call_tool]

/-- Witness for the amended C7 at concrete content and LLM outcomes. -/
theorem analyze_behavior_witness :
    analyze_content_mcp { content := some "abc" } none = textResult fallbackString ∧
    analyze_content_http "abc" none = fallbackString ∧
    (handle_call_tool "analyze_content" { content := some "abc" } none wStore1).snd
      = wStore1 := by
  refine ⟨?_, ?_, (analyze_behavior "abc" (by decide) none wStore1).2.2.2.2.2.2.1⟩
  · rw [(analyze_behavior "abc" (by decide) none wStore1).2.2.1]
    rfl
  · rw [(analyze_behavior "abc" (by decide) none wStore1).2.2.2.1]
    rfl

/-- C6 counterexample: the two adapters' update operations disagree on an
existing task and a provided empty-string status — the HTTP adapter writes
it, the tool-call adapter ignores it, so the final stores differ. -/
theorem adapters_equivalent_counterexample :
    (update_research_task_http 1 (some "") none wStore2).snd
      ≠ (update_research_task_mcp { taskId := some 1, status := some "" } wStore2).snd := by
  decide

/-- The two adapters' per-task field updates agree whenever every provided
value is non-empty. -/
theorem applyUpdates_agree (sa ra : Option String)
    (hs : ∀ v, sa = some v → v ≠ "") (hr : ∀ v, ra = some v → v ≠ "") :
    applyMcpUpdate sa ra = applyHttpUpdate sa ra := by
  funext t
  rw [applyMcpUpdate_eq]
  unfold applyHttpUpdate
  cases sa with
  | none =>
    cases ra with
    | none => simp [pyStrTruthy]
    | some v =>
      have hv : (v == "") = false := by simp [hr v rfl]
      simp [pyStrTruthy, hv]
  | some v =>
    have hv : (v == "") = false := by simp [hs v rfl]
    cases ra with
    | none => simp [pyStrTruthy, hv]
    | some w =>
      have hw : (w == "") = false := by simp [hr w rfl]
      simp [pyStrTruthy, hv, hw]

/-- C6 amended: the two adapters compute the same task-store transformation
for create with a non-empty query, for list and analyze (which leave the
store unchanged on both), and for update with a nonzero id whose provided
values are non-empty — in particular such updates leave the task store, and
hence the task, in the same final state.  They diverge exactly on the
degenerate inputs: update values that are the empty string, create with an
empty query, and analyze with empty content. -/
theorem adapters_equivalent_on_regular_inputs
    (s : Store) (q : String) (hq : q ≠ "")
    (i : Nat) (hi : i ≠ 0) (statusArg resultArg : Option String)
    (hs : ∀ v, statusArg = some v → v ≠ "") (hr : ∀ v, resultArg = some v → v ≠ "")
    (c : String) (llm : Option String) :
    (create_research_task_http q s).snd
      = (create_research_task_mcp { query := some q } s).snd ∧
    (list_research_tasks_mcp s).snd = s ∧
    get_research_tasks_http s = s.tasks ∧
    (update_research_task_http i statusArg resultArg s).snd
      = (update_research_task_mcp
          { taskId := some i, status := statusArg, result := resultArg } s).snd ∧
    (handle_call_tool "analyze_content" { content := some c } llm s).snd = s := by
  have hq2 : (q == "") = false := by simp [hq]
  have hi2 : (i == 0) = false := by simp [hi]
  refine ⟨?_, ?_, rfl, ?_, ?_⟩
  · simp [create_research_task_http, create_research_task_mcp, pyStrTruthy, hq2,
      Store.insertTask]
  · unfold list_research_tasks_mcp
    split
    · rfl
    · rfl
  · cases hfind : s.findById i with
    | none => simp [update_research_task_http, update_research_task_mcp, hi2, hfind]
    | some t =>
      simp only [update_research_task_http, update_research_task_mcp, hi2,
        Bool.false_eq_true, if_false, hfind]
      rw [applyUpdates_agree statusArg resultArg hs hr]
  · simp [handle_call_tool]

/-- Witness for the amended C6 at a concrete store and inputs. -/
theorem adapters_equivalent_on_regular_inputs_witness :
    (create_research_task_http "laptop" wStore2).snd
      = (create_research_task_mcp { query := some "laptop" } wStore2).snd ∧
    (update_research_task_http 1 (some "archived") none wStore2).snd
      = (update_research_task_mcp
          { taskId := some 1, status := some "archived", result := none } wStore2).snd :=
  ⟨(adapters_equivalent_on_regular_inputs wStore2 "laptop" (by decide) 1 (by decide)
      (some "archived") none (by intro v hv; simp at hv; subst hv; decide)
      (by intro v hv; simp at hv) "abc" none).1,
   (adapters_equivalent_on_regular_inputs wStore2 "laptop" (by decide) 1 (by decide)
      (some "archived") none (by intro v hv; simp at hv; subst hv; decide)
      (by intro v hv; simp at hv) "abc" none).2.2.2.1⟩

/-- C8 counterexample: a 300-status response is non-2xx, yet with a
well-formed body carrying the text field `generate` returns that text
rather than `None` — `raise_for_status` raises only for 4xx/5xx statuses,
and 300 (and 304) responses are not auto-redirected away by the HTTP
client. -/
theorem llm_generate_counterexample :
    ¬ (200 ≤ 300 ∧ 300 < 300) ∧
    OllamaClient.generate (.response 300 (some (some "hi"))) = some "hi" := by
  decide

/-- C8 amended: for every prompt, `generate` returns `None` on a network
error, on every 4xx/5xx status (the statuses the HTTP client's
`raise_for_status` raises on), on a malformed response body and on a body
without the expected text field; every exception raised inside the call is
caught, so nothing propagates to the caller; and the result depends only on
the single HTTP call made — no retry is performed. -/
theorem llm_generate_failure_behavior
    (st : Nat) (hst : 400 ≤ st) (hst2 : st < 600)
    (b : Option (Option String)) (f g : Nat → HttpOutcome) (h0 : f 0 = g 0) :
    OllamaClient.generate .netError = none ∧
    OllamaClient.generate (.response st b) = none ∧
    (∀ s2, OllamaClient.generate (.response s2 none) = none) ∧
    (∀ s2, OllamaClient.generate (.response s2 (some none)) = none) ∧
    (∀ o e, OllamaClient.generateBody o = .error e → OllamaClient.generate o = none) ∧
    OllamaClient.generateStream f = OllamaClient.generateStream g := by
  have hraise : raiseForStatus st = .error .httpError := by
    unfold raiseForStatus
    rw [if_pos ⟨hst, hst2⟩]
  refine ⟨rfl, ?_, ?_, ?_, ?_, ?_⟩
  · simp [OllamaClient.generate, OllamaClient.generateBody, hraise]
  · intro s2
    unfold OllamaClient.generate OllamaClient.generateBody
    cases hx : raiseForStatus s2 <;> simp [hx]
  · intro s2
    unfold OllamaClient.generate OllamaClient.generateBody
    cases hx : raiseForStatus s2 <;> simp [hx]
  · intro o e he
    unfold OllamaClient.generate
    rw [he]
  · unfold OllamaClient.generateStream
    rw [h0]

/-- Witness for the amended C8 at a concrete failing status and oracle. -/
theorem llm_generate_failure_behavior_witness :
    OllamaClient.generate .netError = none ∧
    OllamaClient.generate (.response 500 (some (some "hi"))) = none ∧
    (∀ s2, OllamaClient.generate (.response s2 none) = none) :=
  ⟨(llm_generate_failure_behavior 500 (by decide) (by decide) (some (some "hi"))
      (fun _ => .netError) (fun _ => .netError) rfl).1,
   (llm_generate_failure_behavior 500 (by decide) (by decide) (some (some "hi"))
      (fun _ => .netError) (fun _ => .netError) rfl).2.1,
   (llm_generate_failure_behavior 500 (by decide) (by decide) (some (some "hi"))
      (fun _ => .netError) (fun _ => .netError) rfl).2.2.1⟩

end MCPResearch
